import Mathlib

/-!
Verification of the Bluetooth HID mouse service (`src/mousecontroller/main.py`,
class `BTHIDMouseService`) against its natural-language specification.

The Python source is shallowly embedded: pure computations (HID report codec,
identity generation) become Lean functions on `Int`/`Nat`/`String`; the
effectful routines (registration retry loops, adapter readiness repair,
cleanup) become explicit state-passing functions that additionally return the
trace of external calls they perform, so that claims about "which calls happen
and in which order" are statements about concrete lists.
-/

namespace MouseController

/-! ## HID report codec (`BTHIDMouseService.run`, lines 307-313)

    dx = max(-127, min(127, curr_pos[0] - prev_pos[0]))
    dy = max(-127, min(127, curr_pos[1] - prev_pos[1]))
    buttons = (left | (right << 1) | (middle << 2))
    report = bytes([buttons, dx & 0xFF, dy & 0xFF])
-/

/-- Python `max(-127, min(127, d))`. -/
def clampDelta (d : Int) : Int := max (-127) (min 127 d)

/-- The per-axis delta of `BTHIDMouseService.run`: clamped difference of the
current and previous coordinate. -/
def computeDelta (curr prev : Int) : Int := clampDelta (curr - prev)

/-- Python's implicit bool-to-int coercion (`True` is `1`, `False` is `0`). -/
def b2n (b : Bool) : Nat := if b then 1 else 0

/-- `buttons = (left | (right << 1) | (middle << 2))` — note the source unpacks
`left, middle, right = pygame.mouse.get_pressed()` and shifts `right` by 1 and
`middle` by 2. -/
def buttonMask (left middle right : Bool) : Nat :=
  Nat.lor (b2n left) (Nat.lor (Nat.shiftLeft (b2n right) 1) (Nat.shiftLeft (b2n middle) 2))

/-- Python `d & 0xFF` on an arbitrary-precision signed integer: the
mathematical residue of `d` modulo 256 (Python `&` of a negative int with
`0xFF` equals `d % 256` with a nonnegative result). -/
def toByte (d : Int) : Nat := (d % 256).toNat

/-- Decoding one report byte as a signed 8-bit two's-complement integer. -/
def decodeS8 (b : Nat) : Int := if 128 ≤ b then (b : Int) - 256 else (b : Int)

/-- `report = bytes([buttons, dx & 0xFF, dy & 0xFF])`: the 3-byte HID report
built from two consecutive pointer samples and the button triple. -/
def hidReport (prev curr : Int × Int) (left middle right : Bool) : List Nat :=
  [buttonMask left middle right,
   toByte (computeDelta curr.1 prev.1),
   toByte (computeDelta curr.2 prev.2)]

/-! ## Service identity (`BTHIDMouseService.__init__`, lines 56-64)

    self.random_suffix = random.randint(1000, 9999)
    self.unique_uuid = f"{self.BASE_HID_UUID[:-4]}{self.random_suffix:04x}"
    self.AGENT_PATH = f"/org/bluez/agent/{self.pid}_{self.random_suffix}"
    self.HID_PATH = f"/org/bluez/hid/{self.pid}_{self.random_suffix}"
-/

/-- `BASE_HID_UUID = '00001124-0000-1000-8000-00805f9b34fb'`. -/
def BASE_HID_UUID : String := "00001124-0000-1000-8000-00805f9b34fb"

/-- Python `f"{n:04x}"`: lowercase hexadecimal, zero-padded to width 4. -/
def hex4 (n : Nat) : String :=
  let s := String.mk (Nat.toDigits 16 n)
  String.mk (List.replicate (4 - s.length) '0') ++ s

/-- `self.unique_uuid = f"{self.BASE_HID_UUID[:-4]}{self.random_suffix:04x}"`:
the base HID UUID with its last four hex digits (16 bits) replaced by the
suffix rendered in hex. -/
def unique_uuid (suffix : Nat) : String := BASE_HID_UUID.dropRight 4 ++ hex4 suffix

/-- `self.AGENT_PATH = f"/org/bluez/agent/{self.pid}_{self.random_suffix}"`:
both interpolations use Python's default (decimal) rendering. -/
def AGENT_PATH (pid suffix : Nat) : String :=
  "/org/bluez/agent/" ++ toString pid ++ "_" ++ toString suffix

/-- `self.HID_PATH = f"/org/bluez/hid/{self.pid}_{self.random_suffix}"`. -/
def HID_PATH (pid suffix : Nat) : String :=
  "/org/bluez/hid/" ++ toString pid ++ "_" ++ toString suffix

/-! ## Basic codec lemmas -/

theorem clampDelta_eq (d : Int) :
    clampDelta d = if d < -127 then -127 else if 127 < d then 127 else d := by
  simp only [clampDelta, max_def, min_def]
  split_ifs <;> omega

theorem clampDelta_mem (d : Int) : -127 ≤ clampDelta d ∧ clampDelta d ≤ 127 := by
  rw [clampDelta_eq]; split_ifs <;> omega

theorem decodeS8_toByte (d : Int) (h1 : -127 ≤ d) (h2 : d ≤ 127) :
    decodeS8 (toByte d) = d := by
  simp only [toByte, decodeS8]
  split <;> omega

theorem toByte_lt (d : Int) : toByte d < 256 := by
  simp only [toByte]; omega

theorem toByte_ne_128 (d : Int) (h1 : -127 ≤ d) (h2 : d ≤ 127) : toByte d ≠ 128 := by
  simp only [toByte]; omega

theorem buttonMask_lt_8 (left middle right : Bool) : buttonMask left middle right < 8 := by
  cases left <;> cases middle <;> cases right <;> decide

/-! ## Profile registration (`BTHIDMouseService.register_profile`, lines 207-238)

    for attempt in range(3):
        try:
            self.profile_manager.RegisterProfile(...)
            self.profile_registered = True
            return
        except dbus.exceptions.DBusException as e:
            if "org.bluez.Error.AlreadyExists" in str(e):
                try: self.profile_manager.UnregisterProfile(self.HID_PATH)
                except: pass
            time.sleep(1)
    self.profile_registered = False

The external profile manager is abstracted as a transition system `Daemon σ`:
`register` performs one `RegisterProfile(HID_PATH, ...)` call and reports its
outcome; `unregister` performs one `UnregisterProfile(HID_PATH)` call whose
fault, if any, the source swallows (`except: pass`), so no outcome is
reported. -/

/-- Outcome of one `RegisterProfile` call as the source discriminates it:
success, the specific `org.bluez.Error.AlreadyExists` fault, or any other
`DBusException`. -/
inductive RegResult
  | ok
  | alreadyExists
  | otherFault
deriving DecidableEq

/-- Abstract profile-manager endpoint for `RegisterProfile`/`UnregisterProfile`
on the service's fixed `HID_PATH`. -/
structure Daemon (σ : Type) where
  register : σ → σ × RegResult
  unregister : σ → σ

/-- One external call made by the registration loop. -/
inductive RegCall
  | callRegister
  | callUnregister
deriving DecidableEq

/-- The body of `register_profile`'s `for attempt in range(3)` loop, with the
remaining attempt count as fuel. Returns the daemon state, the final value of
`self.profile_registered`, and the trace of profile-manager calls. On success
the flag is set and the loop returns; on `AlreadyExists` the colliding path is
unregistered (any fault from that call ignored) before the next attempt; on any
other fault the loop just retries. Falling off the loop sets the flag to
`False` (line 238). -/
def registerProfileGo {σ : Type} (D : Daemon σ) : Nat → σ → σ × Bool × List RegCall
  | 0, s => (s, false, [])
  | Nat.succ rem, s =>
    match D.register s with
    | (s1, RegResult.ok) => (s1, true, [RegCall.callRegister])
    | (s1, RegResult.alreadyExists) =>
      let s2 := D.unregister s1
      let r := registerProfileGo D rem s2
      (r.1, r.2.1, RegCall.callRegister :: RegCall.callUnregister :: r.2.2)
    | (s1, RegResult.otherFault) =>
      let r := registerProfileGo D rem s1
      (r.1, r.2.1, RegCall.callRegister :: r.2.2)

/-- `BTHIDMouseService.register_profile`: three attempts. -/
def register_profile {σ : Type} (D : Daemon σ) (s : σ) : σ × Bool × List RegCall :=
  registerProfileGo D 3 s

/-- BlueZ-side semantics of the profile manager for the single path
`HID_PATH`, per its interface contract: the state records whether that path
currently has an active registration; `RegisterProfile` faults with
`AlreadyExists` exactly when it does, and `UnregisterProfile` removes it
(a fault on an already-absent path leaves the state absent). -/
def bluezProfileManager : Daemon Bool where
  register := fun active => if active then (active, RegResult.alreadyExists) else (true, RegResult.ok)
  unregister := fun _ => false

/-- Response-oracle daemon used to talk about arbitrary failure patterns: the
state is the index of the next `RegisterProfile` call, whose outcome is
`resp i`; `UnregisterProfile` does not affect it. -/
def oracleProfileManager (resp : Nat → RegResult) : Daemon Nat where
  register := fun i => (i + 1, resp i)
  unregister := fun i => i

/-! ## Agent registration (`BTHIDMouseService.register_agent`, lines 191-205)

    for attempt in range(3):
        try:
            self.agent_manager.RegisterAgent(self.AGENT_PATH, "NoInputNoOutput")
            self.agent_manager.RequestDefaultAgent(self.AGENT_PATH)
            self.agent_registered = True
            return
        except dbus.exceptions.DBusException as e:
            time.sleep(1)
    self.agent_registered = False

`resp i = true` means attempt `i`'s `RegisterAgent` + `RequestDefaultAgent`
pair completed without a `DBusException`. -/

/-- The `for attempt in range(3)` loop of `register_agent`, with the attempt
index and remaining fuel; returns the final `self.agent_registered` flag and
the number of attempts performed. -/
def registerAgentGo (resp : Nat → Bool) : Nat → Nat → Bool × Nat
  | _, 0 => (false, 0)
  | i, Nat.succ rem =>
    if resp i then (true, 1)
    else
      let r := registerAgentGo resp (i + 1) rem
      (r.1, r.2 + 1)

/-- `BTHIDMouseService.register_agent`: three attempts starting at index 0. -/
def register_agent (resp : Nat → Bool) : Bool × Nat := registerAgentGo resp 0 3

/-! ## Bus connection (`BTHIDMouseService.get_dbus_connection`, lines 149-165)

    for attempt in range(3):
        try:
            bus = dbus.SystemBus()
            bluez_obj = bus.get_object('org.bluez', '/org/bluez')
            return bus
        except dbus.exceptions.DBusException as e:
            if "org.freedesktop.DBus.Error.ServiceUnknown" in str(e):
                if not self.ensure_bluetooth_service(): ...
            time.sleep(2)
    raise ConnectionError("Could not establish DBus connection")
-/

/-- Outcome of one connection attempt as the source discriminates it. -/
inductive BusAttempt
  | ok
  | serviceUnknown
  | otherFault
deriving DecidableEq

/-- The terminal error of `get_dbus_connection`. -/
inductive ConnError
  | connectionError
deriving DecidableEq

/-- The retry loop of `get_dbus_connection`: returns the result (a unit
standing for the bus handle on success, `ConnectionError` raised after the
loop), the number of connection attempts performed, and the number of
`ensure_bluetooth_service` recovery invocations (made only on the
`ServiceUnknown` fault class). -/
def getDbusGo (resp : Nat → BusAttempt) : Nat → Nat → Except ConnError Unit × Nat × Nat
  | _, 0 => (Except.error ConnError.connectionError, 0, 0)
  | i, Nat.succ rem =>
    match resp i with
    | BusAttempt.ok => (Except.ok (), 1, 0)
    | BusAttempt.serviceUnknown =>
      let r := getDbusGo resp (i + 1) rem
      (r.1, r.2.1 + 1, r.2.2 + 1)
    | BusAttempt.otherFault =>
      let r := getDbusGo resp (i + 1) rem
      (r.1, r.2.1 + 1, r.2.2)

/-- `BTHIDMouseService.get_dbus_connection`: three attempts starting at 0. -/
def get_dbus_connection (resp : Nat → BusAttempt) : Except ConnError Unit × Nat × Nat :=
  getDbusGo resp 0 3

/-! ## Lifecycle controller (`BTHIDMouseService.run`, lines 287-324)

    def run(self):
        if not self.profile_registered:
            logger.error("Cannot run without HID profile")
            return
        ...
        try:
            while True: ...
        except KeyboardInterrupt: ...
        except Exception as e: ...
        finally:
            self.cleanup()

The guard path returns before the `try`/`finally` block is entered, so on that
path `cleanup` is not invoked by `run`. -/

/-- What one invocation of `run` does at the control-flow level. -/
structure RunOutcome where
  enteredLoop : Bool
  cleanupRan : Bool
deriving DecidableEq

/-- `BTHIDMouseService.run` as a function of the `profile_registered` flag it
tests: with the flag unset it returns at line 291, before the `try` block whose
`finally` holds the only `cleanup()` call in `run`; with the flag set it enters
the sampling loop, whose every exit path runs `cleanup()` via `finally`. -/
def runControl (profile_registered : Bool) : RunOutcome :=
  if profile_registered then { enteredLoop := true, cleanupRan := true }
  else { enteredLoop := false, cleanupRan := false }

/-! ## Cleanup (`BTHIDMouseService.cleanup`, lines 332-356)

    if hasattr(self, 'profile_manager') and self.profile_registered:
        try:
            self.profile_manager.UnregisterProfile(self.HID_PATH)
        except dbus.exceptions.DBusException as e: ...
    if hasattr(self, 'agent_manager') and self.agent_registered:
        try:
            self.agent_manager.UnregisterAgent(self.AGENT_PATH)
        except dbus.exceptions.DBusException as e: ...
    pygame.quit()
    if hasattr(self, 'mainloop') and self.mainloop.is_running(): self.mainloop.quit()

Modelled after `setup_services` has run, so both manager attributes exist and
the `hasattr` conjuncts are true. Note that `cleanup` never assigns
`self.profile_registered` or `self.agent_registered`. -/

/-- The service-instance flags together with the daemon-side truth about which
handles are actively registered with BlueZ. -/
structure ServiceState where
  profile_registered : Bool
  agent_registered : Bool
  profileActive : Bool
  agentActive : Bool
deriving DecidableEq

/-- One external unregistration call attempted by `cleanup`. -/
inductive TeardownCall
  | unregisterProfileCall
  | unregisterAgentCall
deriving DecidableEq

/-- `BTHIDMouseService.cleanup`: each unregister attempt is guarded by the
corresponding `*_registered` flag; an attempt removes the daemon-side
registration if it is active, and its `DBusException` is caught and only
logged if it is not. The flags themselves are not written by this routine
(no `self.profile_registered = False` / `self.agent_registered = False`
appears in it). -/
def cleanup (s : ServiceState) : ServiceState × List TeardownCall :=
  let profCalls := if s.profile_registered then [TeardownCall.unregisterProfileCall] else []
  let profActive := if s.profile_registered then false else s.profileActive
  let agentCalls := if s.agent_registered then [TeardownCall.unregisterAgentCall] else []
  let agentActive := if s.agent_registered then false else s.agentActive
  ({ s with profileActive := profActive, agentActive := agentActive },
   profCalls ++ agentCalls)

/-! ## Adapter readiness (`BTHIDMouseService.ensure_bluetooth_service`,
lines 110-147)

    try:
        status = self.run_bluetoothctl_command("show")
        if "Controller" not in status:
            subprocess.run(['sudo', 'systemctl', 'restart', 'bluetooth'], check=True)
            time.sleep(2)
        if "Powered: no" in status: power on; sleep 1
        if "Discoverable: no" in status: discoverable on
        if "Pairable: no" in status: pairable on
        agent on
        if "Discoverable: no" in status or "Pairable: no" in status:
            scan off; scan on
        return True
    except subprocess.CalledProcessError as e:
        logger.error(...)
        return False

Every guard inspects the single `status` string captured by the initial
`show` query. The only statement in the `try` block that can raise
`CalledProcessError` is the `check=True` restart at line 117
(`run_bluetoothctl_command` catches all of its own exceptions and returns a
string), so the `except` path at lines 145-147 fires exactly when the adapter
was unresponsive and the service restart itself failed — and then the routine
returns `False` at once, performing none of the later steps (not even the
settle sleep, which follows the raising call). -/

/-- The substring tests the source applies to the output of one
`bluetoothctl show` query. -/
structure ShowStatus where
  controllerPresent : Bool
  poweredNo : Bool
  discoverableNo : Bool
  pairableNo : Bool
deriving DecidableEq

/-- One control-surface action issued by `ensure_bluetooth_service`. -/
inductive AdapterAction
  | queryShow
  | restartService
  | settleWait (seconds : Nat)
  | powerOn
  | discoverableOn
  | pairableOn
  | agentOn
  | scanOff
  | scanOn
deriving DecidableEq

/-- `BTHIDMouseService.ensure_bluetooth_service` as its returned boolean plus
the sequence of control-surface actions it performs, given the (single)
queried status and the outcome of the `sudo systemctl restart bluetooth`
subprocess (`restartOk`), which is consulted only when the restart is actually
attempted, i.e. when `"Controller"` is absent from the status. A failing
restart (the `check=True` call raising `CalledProcessError`) jumps to the
`except` handler: the routine returns `False` having performed only the query
and the restart attempt. -/
def ensure_bluetooth_service (st : ShowStatus) (restartOk : Bool) :
    Bool × List AdapterAction :=
  if !st.controllerPresent && !restartOk then
    (false, [AdapterAction.queryShow, AdapterAction.restartService])
  else
    (true,
      [AdapterAction.queryShow]
        ++ (if st.controllerPresent then []
            else [AdapterAction.restartService, AdapterAction.settleWait 2])
        ++ (if st.poweredNo then [AdapterAction.powerOn, AdapterAction.settleWait 1] else [])
        ++ (if st.discoverableNo then [AdapterAction.discoverableOn] else [])
        ++ (if st.pairableNo then [AdapterAction.pairableOn] else [])
        ++ [AdapterAction.agentOn]
        ++ (if st.discoverableNo || st.pairableNo
            then [AdapterAction.scanOff, AdapterAction.scanOn] else []))

/-- The action sequence claimed for `ensureReady`, written from the claim's
words: exactly steps (1)-(6) — query state; restart and wait only if
unresponsive; power on and wait only if unpowered; enable discoverable only
if not discoverable; enable pairable only if not pairable; always enable the
pairing agent flag — and no others. -/
def claimEnsureSteps (st : ShowStatus) : List AdapterAction :=
  [AdapterAction.queryShow]
    ++ (if st.controllerPresent then []
        else [AdapterAction.restartService, AdapterAction.settleWait 2])
    ++ (if st.poweredNo then [AdapterAction.powerOn, AdapterAction.settleWait 1] else [])
    ++ (if st.discoverableNo then [AdapterAction.discoverableOn] else [])
    ++ (if st.pairableNo then [AdapterAction.pairableOn] else [])
    ++ [AdapterAction.agentOn]

/-! ## Claim theorems -/

/-- C3: for every pair of consecutive pointer samples the codec computes the
clamped difference per axis — the result always lies in `[-127, 127]`, a
difference above `127` yields exactly `127`, one below `-127` yields exactly
`-127` (clamped, never wrapped), and an in-range difference passes through
unchanged; the function is total over all integer inputs. -/
theorem C3_delta_clamped (curr prev : Int) :
    (-127 ≤ computeDelta curr prev ∧ computeDelta curr prev ≤ 127) ∧
    (127 < curr - prev → computeDelta curr prev = 127) ∧
    (curr - prev < -127 → computeDelta curr prev = -127) ∧
    (-127 ≤ curr - prev → curr - prev ≤ 127 → computeDelta curr prev = curr - prev) := by
  simp only [computeDelta, clampDelta_eq]
  refine ⟨⟨?_, ?_⟩, ?_, ?_, ?_⟩ <;> split_ifs <;> omega

/-- Witness for C3 at the concrete sample pairs `(100) → (250)` (delta 150,
clamped to 127), `(250) → (80)` (delta -170, clamped to -127) and
`(20) → (0)` (delta -20, in range). -/
theorem C3_delta_clamped_witness :
    computeDelta 250 100 = 127 ∧ computeDelta 80 250 = -127 ∧ computeDelta 0 20 = -20 :=
  ⟨(C3_delta_clamped 250 100).2.1 (by decide),
   (C3_delta_clamped 80 250).2.2.1 (by decide),
   (C3_delta_clamped 0 20).2.2.2 (by decide) (by decide)⟩

/-- C7: for every combination of the three button booleans, the report's first
byte is `left | (right << 1) | (middle << 2)` — arithmetically
`left + 2*right + 4*middle` on 0/1 values — and the top five bits of that mask
byte are always zero. -/
theorem C7_buttonMask_bits (prev curr : Int × Int) (left middle right : Bool) :
    (hidReport prev curr left middle right).getD 0 0 =
      b2n left + 2 * b2n right + 4 * b2n middle ∧
    ∀ k, 3 ≤ k → Nat.testBit ((hidReport prev curr left middle right).getD 0 0) k = false := by
  constructor
  · show buttonMask left middle right = _
    cases left <;> cases middle <;> cases right <;> decide
  · intro k hk
    apply Nat.testBit_eq_false_of_lt
    calc (hidReport prev curr left middle right).getD 0 0 < 8 :=
          buttonMask_lt_8 left middle right
      _ ≤ 2 ^ k := by
          calc (8 : Nat) = 2 ^ 3 := rfl
            _ ≤ 2 ^ k := Nat.pow_le_pow_right (by norm_num) hk

/-- Witness for C7 with all three buttons held and bit 3 inspected. -/
theorem C7_buttonMask_bits_witness :
    (hidReport (0, 0) (0, 0) true true true).getD 0 0 = 7 ∧
    Nat.testBit ((hidReport (0, 0) (0, 0) true true true).getD 0 0) 3 = false :=
  ⟨((C7_buttonMask_bits (0, 0) (0, 0) true true true).1).trans (by decide),
   (C7_buttonMask_bits (0, 0) (0, 0) true true true).2 3 (by decide)⟩

/-- C8: decoding the produced report's second and third bytes as signed 8-bit
two's-complement integers recovers the clamped `(dx, dy)` exactly, for every
pair of consecutive pointer samples and every button triple. -/
theorem C8_report_roundtrip (prev curr : Int × Int) (left middle right : Bool) :
    decodeS8 ((hidReport prev curr left middle right).getD 1 0) =
      computeDelta curr.1 prev.1 ∧
    decodeS8 ((hidReport prev curr left middle right).getD 2 0) =
      computeDelta curr.2 prev.2 := by
  have h1 := clampDelta_mem (curr.1 - prev.1)
  have h2 := clampDelta_mem (curr.2 - prev.2)
  exact ⟨decodeS8_toByte _ h1.1 h1.2, decodeS8_toByte _ h2.1 h2.2⟩

/-- C10: every value packed into the report lies in `[0, 255]`, so Python's
`bytes([...])` construction never fails, and the delta bytes never take the
value `0x80` (−128 is unreachable because clamping bounds the delta at −127). -/
theorem C10_report_bytes_in_range (prev curr : Int × Int) (left middle right : Bool) :
    (hidReport prev curr left middle right).getD 0 0 ≤ 255 ∧
    (hidReport prev curr left middle right).getD 1 0 ≤ 255 ∧
    (hidReport prev curr left middle right).getD 2 0 ≤ 255 ∧
    (hidReport prev curr left middle right).getD 1 0 ≠ 128 ∧
    (hidReport prev curr left middle right).getD 2 0 ≠ 128 := by
  have hm := buttonMask_lt_8 left middle right
  have h1 := clampDelta_mem (curr.1 - prev.1)
  have h2 := clampDelta_mem (curr.2 - prev.2)
  have b1 := toByte_lt (computeDelta curr.1 prev.1)
  have b2 := toByte_lt (computeDelta curr.2 prev.2)
  show buttonMask left middle right ≤ 255 ∧
    toByte (computeDelta curr.1 prev.1) ≤ 255 ∧
    toByte (computeDelta curr.2 prev.2) ≤ 255 ∧
    toByte (computeDelta curr.1 prev.1) ≠ 128 ∧
    toByte (computeDelta curr.2 prev.2) ≠ 128
  refine ⟨by omega, by omega, by omega, ?_, ?_⟩
  · exact toByte_ne_128 _ h1.1 h1.2
  · exact toByte_ne_128 _ h2.1 h2.2

/-- C4 counterexample: with process id 1234 and suffix `0x2ab3` (= 10931), the
generated UUID does replace the last 16 bits with the hex-rendered suffix, but
the agent object path renders the same suffix in decimal
(`/org/bluez/agent/1234_10931`), not in hex, so the path claimed by the spec
(`/org/bluez/agent/1234_2ab3`) is not produced: the two renderings are
inconsistent. -/
theorem C4_path_rendering_counterexample :
    unique_uuid 10931 = "00001124-0000-1000-8000-00805f9b2ab3" ∧
    AGENT_PATH 1234 10931 = "/org/bluez/agent/1234_10931" ∧
    AGENT_PATH 1234 10931 ≠ "/org/bluez/agent/1234_2ab3" := by
  refine ⟨by decide, by decide, by decide⟩

/-- C4 (amended): for process id 1234 and suffix `0x2ab3` (= 10931), the
service UUID is `00001124-0000-1000-8000-00805f9b2ab3` — the base HID UUID
with its last 16 bits replaced by the suffix rendered as four lowercase hex
digits — while the agent and HID object paths render the same suffix in
decimal: `/org/bluez/agent/1234_10931` and `/org/bluez/hid/1234_10931`. -/
theorem C4_identity_amended :
    unique_uuid 10931 = BASE_HID_UUID.dropRight 4 ++ hex4 10931 ∧
    unique_uuid 10931 = "00001124-0000-1000-8000-00805f9b2ab3" ∧
    AGENT_PATH 1234 10931 = "/org/bluez/agent/1234_" ++ toString (10931 : Nat) ∧
    HID_PATH 1234 10931 = "/org/bluez/hid/1234_" ++ toString (10931 : Nat) := by
  refine ⟨rfl, by decide, by decide, by decide⟩

/-- C5: when `RegisterProfile` hits the `AlreadyExists` conflict fault, the
registrar first attempts `UnregisterProfile` on the colliding path (ignoring
any error from it) and then retries registration. Calling `register_profile`
twice with the same identity — the first call registering from a clean daemon
state, the second hitting the conflict fault — ends with exactly one active
registration: the first call performs one successful `RegisterProfile`, and
the second call's trace is register (faults), unregister, register (succeeds),
leaving the daemon-side registration active and the flag set. -/
theorem C5_conflict_recovery :
    register_profile bluezProfileManager false = (true, true, [RegCall.callRegister]) ∧
    register_profile bluezProfileManager true =
      (true, true,
        [RegCall.callRegister, RegCall.callUnregister, RegCall.callRegister]) := by
  decide

/-! Helper lemmas for the retry-bound claim: each loop, run with every attempt
failing, performs exactly as many attempts as it has fuel. -/

theorem getDbusGo_all_fail (resp : Nat → BusAttempt) (h : ∀ j, resp j ≠ BusAttempt.ok) :
    ∀ n i, (getDbusGo resp i n).1 = Except.error ConnError.connectionError ∧
      (getDbusGo resp i n).2.1 = n := by
  intro n
  induction n with
  | zero => intro i; exact ⟨rfl, rfl⟩
  | succ m ih =>
    intro i
    cases h0 : resp i with
    | ok => exact absurd h0 (h i)
    | serviceUnknown =>
      simp only [getDbusGo, h0]
      exact ⟨(ih (i + 1)).1, by rw [(ih (i + 1)).2]⟩
    | otherFault =>
      simp only [getDbusGo, h0]
      exact ⟨(ih (i + 1)).1, by rw [(ih (i + 1)).2]⟩

theorem registerAgentGo_all_fail (resp : Nat → Bool) (h : ∀ j, resp j = false) :
    ∀ n i, registerAgentGo resp i n = (false, n) := by
  intro n
  induction n with
  | zero => intro i; rfl
  | succ m ih =>
    intro i
    simp only [registerAgentGo, h i, if_false]
    rw [ih (i + 1)]
    simp

theorem oracle_register_eq (resp : Nat → RegResult) (i : Nat) :
    (oracleProfileManager resp).register i = (i + 1, resp i) := rfl

theorem oracle_unregister_eq (resp : Nat → RegResult) (i : Nat) :
    (oracleProfileManager resp).unregister i = i := rfl

theorem registerProfileGo_all_fail (resp : Nat → RegResult)
    (h : ∀ j, resp j ≠ RegResult.ok) :
    ∀ n i, (registerProfileGo (oracleProfileManager resp) n i).2.1 = false ∧
      ((registerProfileGo (oracleProfileManager resp) n i).2.2).count
        RegCall.callRegister = n := by
  intro n
  induction n with
  | zero => intro i; exact ⟨rfl, rfl⟩
  | succ m ih =>
    intro i
    cases h0 : resp i with
    | ok => exact absurd h0 (h i)
    | alreadyExists =>
      simp only [registerProfileGo, oracle_register_eq, oracle_unregister_eq, h0]
      refine ⟨(ih (i + 1)).1, ?_⟩
      rw [List.count_cons, List.count_cons, (ih (i + 1)).2]
      simp
    | otherFault =>
      simp only [registerProfileGo, oracle_register_eq, h0]
      refine ⟨(ih (i + 1)).1, ?_⟩
      rw [List.count_cons, (ih (i + 1)).2]
      simp

/-- C6: for each component with retry logic — bus connection
(`get_dbus_connection`), agent registration (`register_agent`) and profile
registration (`register_profile`) — if every attempt fails then exactly 3
attempts are performed, and the terminal outcome is signalled: a
`ConnectionError` raised for the bus connection, and the corresponding
registered flag left `false` (handle `Unregistered`) for agent and profile. -/
theorem C6_retry_bound (busResp : Nat → BusAttempt) (agentResp : Nat → Bool)
    (profResp : Nat → RegResult)
    (hb : ∀ i, busResp i ≠ BusAttempt.ok)
    (ha : ∀ i, agentResp i = false)
    (hp : ∀ i, profResp i ≠ RegResult.ok) :
    ((get_dbus_connection busResp).1 = Except.error ConnError.connectionError ∧
      (get_dbus_connection busResp).2.1 = 3) ∧
    register_agent agentResp = (false, 3) ∧
    ((register_profile (oracleProfileManager profResp) 0).2.1 = false ∧
      ((register_profile (oracleProfileManager profResp) 0).2.2).count
        RegCall.callRegister = 3) :=
  ⟨getDbusGo_all_fail busResp hb 3 0,
   registerAgentGo_all_fail agentResp ha 3 0,
   registerProfileGo_all_fail profResp hp 3 0⟩

/-- Witness for C6: concrete response oracles on which every attempt fails. -/
theorem C6_retry_bound_witness :
    ((get_dbus_connection (fun _ => BusAttempt.otherFault)).1 =
        Except.error ConnError.connectionError ∧
      (get_dbus_connection (fun _ => BusAttempt.otherFault)).2.1 = 3) ∧
    register_agent (fun _ => false) = (false, 3) ∧
    ((register_profile (oracleProfileManager fun _ => RegResult.otherFault) 0).2.1 = false ∧
      ((register_profile (oracleProfileManager fun _ => RegResult.otherFault) 0).2.2).count
        RegCall.callRegister = 3) :=
  C6_retry_bound (fun _ => BusAttempt.otherFault) (fun _ => false)
    (fun _ => RegResult.otherFault)
    (fun _ hh => BusAttempt.noConfusion hh) (fun _ => rfl)
    (fun _ hh => RegResult.noConfusion hh)

/-- C1 (behaviour at the failing input): when profile registration has failed
after exhausting its retries (`profile_registered = false`), `run` does refuse
to enter the sampling loop, but it returns at line 291 without invoking the
cleanup routine: the only `cleanup()` call in `run` sits in the `finally`
clause of the `try` block that the early `return` never enters. -/
theorem C1_run_skips_cleanup :
    runControl false = { enteredLoop := false, cleanupRan := false } := rfl

/-- C2 (behaviour at the failing input): starting from a fully registered
state, the first `cleanup` call attempts both unregistrations (leaving the
daemon-side handles inactive) but never clears the `profile_registered` /
`agent_registered` flags, so a second `cleanup` call attempts
`UnregisterProfile` and `UnregisterAgent` again — against handles that are
already unregistered — contradicting the claimed true→false flag transition
and the claimed idempotence. -/
theorem C2_cleanup_reattempts_unregister :
    (cleanup ⟨true, true, true, true⟩).2 =
      [TeardownCall.unregisterProfileCall, TeardownCall.unregisterAgentCall] ∧
    ((cleanup ⟨true, true, true, true⟩).1).profileActive = false ∧
    ((cleanup ⟨true, true, true, true⟩).1).agentActive = false ∧
    ((cleanup ⟨true, true, true, true⟩).1).profile_registered = true ∧
    ((cleanup ⟨true, true, true, true⟩).1).agent_registered = true ∧
    (cleanup ((cleanup ⟨true, true, true, true⟩).1)).2 =
      [TeardownCall.unregisterProfileCall, TeardownCall.unregisterAgentCall] := by
  decide

/-- C9 counterexample, two deviations from the claimed "exactly these steps
and no others": (a) on an adapter status that is responsive, powered and
pairable but not discoverable, `ensure_bluetooth_service` additionally issues
a `scan off` followed by `scan on`, actions outside the claim's step list;
(b) when the adapter is unresponsive and the service restart fails, the
routine aborts without ever enabling the pairing agent flag, refuting the
claimed unconditional step (6). -/
theorem C9_extra_scan_counterexample :
    (ensure_bluetooth_service ⟨true, false, true, false⟩ true).2 ≠
      claimEnsureSteps ⟨true, false, true, false⟩ ∧
    AdapterAction.scanOff ∈ (ensure_bluetooth_service ⟨true, false, true, false⟩ true).2 ∧
    AdapterAction.scanOff ∉ claimEnsureSteps ⟨true, false, true, false⟩ ∧
    AdapterAction.agentOn ∉ (ensure_bluetooth_service ⟨false, false, false, false⟩ false).2 := by
  decide

/-- C9 (amended): whenever the adapter was responsive or the restart
succeeded, `ensure_bluetooth_service` returns `True` after performing, in
order and conditionally on the adapter state captured by the single initial
query, exactly the six claimed steps — query; restart+wait only if
unresponsive; power on+wait only if unpowered; discoverable on only if not
discoverable; pairable on only if not pairable; agent on — followed by one
extra step: when the queried status showed the adapter not discoverable or
not pairable, a `scan off` then `scan on` reset. When the adapter was
unresponsive and the restart itself failed, it instead returns `False` having
performed only the query and the restart attempt. All guards are evaluated
against that per-invocation query of live adapter state, not an internal
flag. -/
theorem C9_ensure_steps_amended (st : ShowStatus) (restartOk : Bool) :
    ensure_bluetooth_service st restartOk =
      if st.controllerPresent || restartOk then
        (true,
          claimEnsureSteps st ++
            (if st.discoverableNo || st.pairableNo
              then [AdapterAction.scanOff, AdapterAction.scanOn] else []))
      else (false, [AdapterAction.queryShow, AdapterAction.restartService]) := by
  rcases st with ⟨c, p, d, q⟩
  cases c <;> cases p <;> cases d <;> cases q <;> cases restartOk <;> rfl

end MouseController
